import Mathlib

/-!
# Verification of the signature-decorator module

A shallow embedding of `src/utils/signature-decorator.js` (the
signature-decoration and cleanup subsystem of the document-editor
repository), together with theorems settling the claims about it.

Modelling conventions:
* A JavaScript object field that may be absent (`undefined`) is an
  `Option`; `none` models an absent key.
* JavaScript numbers are modelled as rationals (`ℚ`).
* The spread operator `{...d, ...c}` is modelled field-by-field by
  `jsFieldOr` (the override's field when present, else the default's).
* JavaScript truthiness of strings (empty string is falsy) is modelled
  by `strTruthy` / `jsStrOr`.
* `String.prototype.includes` is modelled by `jsIncludes` (substring
  containment on the character list).
-/

/-- `jsFieldOr o d` models field access after a spread `{...d, ...c}`:
the override's field `o` when present, otherwise the default `d`. -/
def jsFieldOr {α : Type} (o : Option α) (d : Option α) : Option α :=
  match o with
  | some v => some v
  | none => d

/-- JS truthiness of an optional string: `undefined` and `""` are falsy. -/
def strTruthy (o : Option String) : Bool :=
  match o with
  | some s => !s.isEmpty
  | none => false

/-- `a || b` on JS strings: `a` when present and non-empty, else `b`. -/
def jsStrOr (a : Option String) (b : Option String) : Option String :=
  match a with
  | some s => if s.isEmpty then b else some s
  | none => b

/-- Whether `pat` is an initial run of `l`. -/
def leadMatch : List Char → List Char → Bool
  | [], _ => true
  | _ :: _, [] => false
  | a :: as, b :: bs => a == b && leadMatch as bs

/-- Whether `pat` occurs contiguously inside `l`. -/
def hasSubList (pat : List Char) : List Char → Bool
  | [] => pat.isEmpty
  | c :: rest => leadMatch pat (c :: rest) || hasSubList pat rest

/-- Models `s.includes(pat)` on JS strings. -/
def jsIncludes (s pat : String) : Bool :=
  hasSubList pat.toList s.toList

/-! ## Configuration model

The nested configuration object of `DEFAULT_CONFIG` (lines 14–66 of the
source).  Every leaf is an `Option` so that a partially merged
configuration (as produced by the shallow merge in
`initializeSignatureDecorator`) can be represented faithfully. -/

/-- `curve` subtree of the configuration. -/
structure CurveCfg where
  color : Option String
  strokeWidth : Option String
  topLengthRatio : Option ℚ
  topLengthMax : Option ℚ
  bottomLengthRatio : Option ℚ
  bottomLengthMax : Option ℚ
deriving DecidableEq

/-- `text.fontSize` subtree. -/
structure FontSizeCfg where
  top : Option ℚ
  bottom : Option ℚ
deriving DecidableEq

/-- `text` subtree of the configuration. -/
structure TextCfg where
  color : Option String
  fontFamily : Option String
  fontSize : Option FontSizeCfg
  gap : Option ℚ
deriving DecidableEq

/-- `position` subtree of the configuration. -/
structure PositionCfg where
  svgTopOffset : Option ℚ
  svgLeftOffset : Option ℚ
  topLabelOffset : Option ℚ
  bottomLabelOffset : Option ℚ
deriving DecidableEq

/-- `signatureIdentifiers` subtree of the configuration. -/
structure SigIdCfg where
  typeCode : Option String
  namePattern : Option String
deriving DecidableEq

/-- `defaults` subtree of the configuration. -/
structure DefaultsCfg where
  signerName : Option String
deriving DecidableEq

/-- `dateTimeFormat` subtree of the configuration. -/
structure DateTimeFormatCfg where
  year : Option String
  month : Option String
  day : Option String
  hour : Option String
  minute : Option String
  second : Option String
  hour12 : Option Bool
deriving DecidableEq

/-- The whole configuration object.  Each subtree may itself be absent. -/
structure Config where
  curve : Option CurveCfg
  text : Option TextCfg
  position : Option PositionCfg
  signatureIdentifiers : Option SigIdCfg
  defaults : Option DefaultsCfg
  dateTimeFormat : Option DateTimeFormatCfg
deriving DecidableEq

def emptyCurveCfg : CurveCfg := ⟨none, none, none, none, none, none⟩
def emptyFontSizeCfg : FontSizeCfg := ⟨none, none⟩
def emptyTextCfg : TextCfg := ⟨none, none, none, none⟩
def emptyPositionCfg : PositionCfg := ⟨none, none, none, none⟩
def emptySigIdCfg : SigIdCfg := ⟨none, none⟩
def emptyDefaultsCfg : DefaultsCfg := ⟨none⟩

/-- The empty override object `{}`. -/
def emptyConfig : Config := ⟨none, none, none, none, none, none⟩

def defaultCurveCfg : CurveCfg :=
  { color := some "#0078D4"
    strokeWidth := some "1.5"
    topLengthRatio := some (1/4)
    topLengthMax := some 50
    bottomLengthRatio := some (7/20)
    bottomLengthMax := some 70 }

def defaultFontSizeCfg : FontSizeCfg := { top := some 9, bottom := some 8 }

def defaultTextCfg : TextCfg :=
  { color := some "#008000"
    fontFamily :=
      some "-apple-system, BlinkMacSystemFont, Segoe UI, Roboto, sans-serif"
    fontSize := some defaultFontSizeCfg
    gap := some 3 }

def defaultPositionCfg : PositionCfg :=
  { svgTopOffset := some (-25)
    svgLeftOffset := some (-5)
    topLabelOffset := some (-27)
    bottomLabelOffset := some (-24) }

def defaultSigIdCfg : SigIdCfg :=
  { typeCode := some "S", namePattern := some "SIGNATURE" }

def defaultDefaultsCfg : DefaultsCfg := { signerName := some "Nutrient" }

def defaultDateTimeFormatCfg : DateTimeFormatCfg :=
  { year := some "numeric"
    month := some "2-digit"
    day := some "2-digit"
    hour := some "2-digit"
    minute := some "2-digit"
    second := some "2-digit"
    hour12 := some true }

/-- `DEFAULT_CONFIG` (source lines 14–66): every subtree and leaf present. -/
def DEFAULT_CONFIG : Config :=
  { curve := some defaultCurveCfg
    text := some defaultTextCfg
    position := some defaultPositionCfg
    signatureIdentifiers := some defaultSigIdCfg
    defaults := some defaultDefaultsCfg
    dateTimeFormat := some defaultDateTimeFormatCfg }

/-! ### The two merge sites -/

/-- `{...d, ...c}` on the `curve` subtree. -/
def spreadCurve (d c : CurveCfg) : CurveCfg :=
  { color := jsFieldOr c.color d.color
    strokeWidth := jsFieldOr c.strokeWidth d.strokeWidth
    topLengthRatio := jsFieldOr c.topLengthRatio d.topLengthRatio
    topLengthMax := jsFieldOr c.topLengthMax d.topLengthMax
    bottomLengthRatio := jsFieldOr c.bottomLengthRatio d.bottomLengthRatio
    bottomLengthMax := jsFieldOr c.bottomLengthMax d.bottomLengthMax }

/-- `{...d, ...c}` on the `text.fontSize` subtree. -/
def spreadFontSize (d c : FontSizeCfg) : FontSizeCfg :=
  { top := jsFieldOr c.top d.top
    bottom := jsFieldOr c.bottom d.bottom }

/-- `{...d, ...c}` on the `position` subtree. -/
def spreadPosition (d c : PositionCfg) : PositionCfg :=
  { svgTopOffset := jsFieldOr c.svgTopOffset d.svgTopOffset
    svgLeftOffset := jsFieldOr c.svgLeftOffset d.svgLeftOffset
    topLabelOffset := jsFieldOr c.topLabelOffset d.topLabelOffset
    bottomLabelOffset := jsFieldOr c.bottomLabelOffset d.bottomLabelOffset }

/-- `{...d, ...c}` on the `signatureIdentifiers` subtree. -/
def spreadSigId (d c : SigIdCfg) : SigIdCfg :=
  { typeCode := jsFieldOr c.typeCode d.typeCode
    namePattern := jsFieldOr c.namePattern d.namePattern }

/-- `{...d, ...c}` on the `defaults` subtree. -/
def spreadDefaults (d c : DefaultsCfg) : DefaultsCfg :=
  { signerName := jsFieldOr c.signerName d.signerName }

/-- The deep merge performed by `createSignatureRenderer`
(source lines 259–277): every subtree except `dateTimeFormat` is merged
field-by-field with the defaults, `text.fontSize` one level deeper;
`dateTimeFormat` comes from the top-level spread
`{...DEFAULT_CONFIG, ...customConfig}` only, i.e. it is taken wholesale
from the override when present. -/
def mergeRendererConfig (custom : Config) : Config :=
  let ct := custom.text.getD emptyTextCfg
  { curve := some (spreadCurve defaultCurveCfg (custom.curve.getD emptyCurveCfg))
    text := some
      { color := jsFieldOr ct.color defaultTextCfg.color
        fontFamily := jsFieldOr ct.fontFamily defaultTextCfg.fontFamily
        fontSize := some
          (spreadFontSize defaultFontSizeCfg (ct.fontSize.getD emptyFontSizeCfg))
        gap := jsFieldOr ct.gap defaultTextCfg.gap }
    position := some
      (spreadPosition defaultPositionCfg (custom.position.getD emptyPositionCfg))
    signatureIdentifiers := some
      (spreadSigId defaultSigIdCfg
        (custom.signatureIdentifiers.getD emptySigIdCfg))
    defaults := some
      (spreadDefaults defaultDefaultsCfg (custom.defaults.getD emptyDefaultsCfg))
    dateTimeFormat :=
      jsFieldOr custom.dateTimeFormat DEFAULT_CONFIG.dateTimeFormat }

/-- The shallow merge `{...DEFAULT_CONFIG, ...options.config}` performed
by `initializeSignatureDecorator` (source line 523): each top-level
subtree is taken wholesale from the override when present, else from the
defaults.  No merging happens below the top level. -/
def mergeInitConfig (custom : Config) : Config :=
  { curve := jsFieldOr custom.curve DEFAULT_CONFIG.curve
    text := jsFieldOr custom.text DEFAULT_CONFIG.text
    position := jsFieldOr custom.position DEFAULT_CONFIG.position
    signatureIdentifiers :=
      jsFieldOr custom.signatureIdentifiers DEFAULT_CONFIG.signatureIdentifiers
    defaults := jsFieldOr custom.defaults DEFAULT_CONFIG.defaults
    dateTimeFormat := jsFieldOr custom.dateTimeFormat DEFAULT_CONFIG.dateTimeFormat }

/-! ### Definedness predicates ("every leaf field is defined") -/

def curveDefined (c : CurveCfg) : Bool :=
  c.color.isSome && c.strokeWidth.isSome && c.topLengthRatio.isSome &&
  c.topLengthMax.isSome && c.bottomLengthRatio.isSome && c.bottomLengthMax.isSome

def fontSizeDefined (f : FontSizeCfg) : Bool :=
  f.top.isSome && f.bottom.isSome

def textDefined (t : TextCfg) : Bool :=
  t.color.isSome && t.fontFamily.isSome && t.gap.isSome &&
  (match t.fontSize with
   | some f => fontSizeDefined f
   | none => false)

def positionDefined (p : PositionCfg) : Bool :=
  p.svgTopOffset.isSome && p.svgLeftOffset.isSome &&
  p.topLabelOffset.isSome && p.bottomLabelOffset.isSome

def sigIdDefined (s : SigIdCfg) : Bool :=
  s.typeCode.isSome && s.namePattern.isSome

def defaultsDefined (d : DefaultsCfg) : Bool :=
  d.signerName.isSome

def dateTimeFormatDefined (d : DateTimeFormatCfg) : Bool :=
  d.year.isSome && d.month.isSome && d.day.isSome && d.hour.isSome &&
  d.minute.isSome && d.second.isSome && d.hour12.isSome

/-- Every leaf field, at every nesting level, is defined (the claim's
notion of a gap-free merged configuration). -/
def configAllLeavesDefined (c : Config) : Bool :=
  (match c.curve with | some v => curveDefined v | none => false) &&
  (match c.text with | some v => textDefined v | none => false) &&
  (match c.position with | some v => positionDefined v | none => false) &&
  (match c.signatureIdentifiers with | some v => sigIdDefined v | none => false) &&
  (match c.defaults with | some v => defaultsDefined v | none => false) &&
  (match c.dateTimeFormat with | some v => dateTimeFormatDefined v | none => false)

/-- Every leaf field outside the `dateTimeFormat` subtree is defined. -/
def configDefinedExceptDateTimeFormat (c : Config) : Bool :=
  (match c.curve with | some v => curveDefined v | none => false) &&
  (match c.text with | some v => textDefined v | none => false) &&
  (match c.position with | some v => positionDefined v | none => false) &&
  (match c.signatureIdentifiers with | some v => sigIdDefined v | none => false) &&
  (match c.defaults with | some v => defaultsDefined v | none => false)

/-! ## Bounding boxes and the overlap test -/

/-- An axis-aligned bounding box `{left, top, width, height}`. -/
structure BBox where
  left : ℚ
  top : ℚ
  width : ℚ
  height : ℚ
deriving DecidableEq

/-- `checkBoundingBoxOverlap` (source lines 104–111): the boxes overlap
unless they are strictly disjoint on one of the two axes. -/
def checkBoundingBoxOverlap (b1 b2 : BBox) : Bool :=
  !(decide (b1.left > b2.left + b2.width) ||
    decide (b1.left + b1.width < b2.left) ||
    decide (b1.top > b2.top + b2.height) ||
    decide (b1.top + b1.height < b2.top))

/-! ## Form fields and signature-field classification -/

/-- A form field as read by this module: `constructor?.name` and `name`,
either of which may be absent. -/
structure FormFieldRec where
  ctorName : Option String
  name : Option String
deriving DecidableEq

/-- The `signatureIdentifiers` pair as consumed by `isSignatureField`.
The configurations that reach `isSignatureField` in the source are
`DEFAULT_CONFIG` or a merged configuration, whose `signatureIdentifiers`
subtree always carries both strings, so the two fields are total here. -/
structure SigIdRules where
  typeCode : String
  namePattern : String
deriving DecidableEq

def DEFAULT_SIGID : SigIdRules := ⟨"S", "SIGNATURE"⟩

/-- `isSignatureField` (source lines 85–96): a missing field is not a
signature field; otherwise the constructor name contains `"Signature"`,
or equals the configured type code, or the field name contains the
configured name pattern. -/
def isSignatureField (ff : Option FormFieldRec) (rules : SigIdRules) : Bool :=
  match ff with
  | none => false
  | some f =>
    let typeName := f.ctorName.getD ""
    let fieldName := f.name.getD ""
    jsIncludes typeName "Signature" ||
    typeName == rules.typeCode ||
    jsIncludes fieldName rules.namePattern

/-- The classification the claim describes, in the spec's words: type
code match or name containing the marker substring (and `false` for a
missing field).  A second definition for comparison; it omits the
source's `typeName.includes("Signature")` disjunct. -/
def specSignatureField (ff : Option FormFieldRec) (rules : SigIdRules) : Bool :=
  match ff with
  | none => false
  | some f =>
    (f.ctorName.getD "") == rules.typeCode ||
    jsIncludes (f.name.getD "") rules.namePattern

/-! ## Error classification -/

/-- A JS error value as inspected by `isFormFieldNotFoundError`: only the
(possibly absent) `message` matters. -/
structure JsError where
  message : Option String
deriving DecidableEq

/-- The argument of `isFormFieldNotFoundError`: a single (possibly
null/undefined) error value, or an array of them. -/
inductive ErrInput where
  | single : Option JsError → ErrInput
  | array : List (Option JsError) → ErrInput
deriving DecidableEq

/-- `Array.isArray(error) ? error : [error]` (source line 119). -/
def errElems : ErrInput → List (Option JsError)
  | .single e => [e]
  | .array l => l

/-- `err?.message || ""` (source line 121). -/
def msgOf (err : Option JsError) : String :=
  match err with
  | none => ""
  | some e => e.message.getD ""

/-- `isFormFieldNotFoundError` (source lines 118–127). -/
def isFormFieldNotFoundError (error : ErrInput) : Bool :=
  (errElems error).any fun err =>
    jsIncludes (msgOf err) "no form field" ||
    jsIncludes (msgOf err) "There is no form field"

/-! ## Curve lengths -/

/-- The curve length computed by `createTopCurve` (source lines 145–148)
from the bounding-box width and the `curve.topLengthRatio` /
`curve.topLengthMax` configuration fields. -/
def createTopCurveLength (width ratio maxLen : ℚ) : ℚ :=
  min (width * ratio) maxLen

/-- The curve length computed by `createBottomCurve` (source lines
168–171) from the bounding-box width and the `curve.bottomLengthRatio` /
`curve.bottomLengthMax` configuration fields. -/
def createBottomCurveLength (width ratio maxLen : ℚ) : ℚ :=
  min (width * ratio) maxLen

/-! ## The decoration renderer

`createSignatureRenderer` (source lines 255–349).  The DOM/SVG side
effects are not modelled; the returned `Overlay` record carries every
value the code computes and writes into the node tree.  The `instanceof`
type discrimination is carried as explicit boolean classification fields
on the annotation record, fixed at the host boundary. -/

/-- The `customData` payload read by the renderer. -/
structure CustomData where
  isSignature : Option Bool
  signerName : Option String
deriving DecidableEq

def emptyCustomData : CustomData := ⟨none, none⟩

/-- An annotation as read by this module. -/
structure Annot where
  isInk : Bool
  isImage : Bool
  customData : Option CustomData
  isSignature : Option Bool
  formFieldName : Option String
  boundingBox : BBox
deriving DecidableEq

/-- The overlay descriptor produced for a qualifying annotation: the
computed values written into the wrapper/SVG/label node tree. -/
structure Overlay where
  signerName : String
  topLength : ℚ
  bottomLength : ℚ
  topLabelText : String
  topLabelLeft : ℚ
  bottomLabelLeft : ℚ
  svgWidth : ℚ
  svgHeight : ℚ
deriving DecidableEq

/-- The `options` argument of `createSignatureRenderer`. -/
structure RendererOptions where
  loggedInUser : Option String
  config : Config
deriving DecidableEq

/-- The renderer closure returned by `createSignatureRenderer`
(source lines 279–348): `none` models the `return null` path (no
overlay); otherwise the computed overlay values. -/
def createSignatureRenderer (opts : RendererOptions) (ann : Annot) :
    Option Overlay :=
  let config := mergeRendererConfig opts.config
  let customData := ann.customData.getD emptyCustomData
  let isSig := customData.isSignature.getD false || ann.isSignature.getD false
  if !ann.isInk && !ann.isImage && !isSig then
    none
  else
    let signerName :=
      (jsStrOr customData.signerName
        (jsStrOr opts.loggedInUser
          ((config.defaults.getD emptyDefaultsCfg).signerName))).getD ""
    let width := ann.boundingBox.width
    let height := ann.boundingBox.height
    let curve := config.curve.getD emptyCurveCfg
    let text := config.text.getD emptyTextCfg
    let topLength :=
      createTopCurveLength width (curve.topLengthRatio.getD 0)
        (curve.topLengthMax.getD 0)
    let bottomLength :=
      createBottomCurveLength width (curve.bottomLengthRatio.getD 0)
        (curve.bottomLengthMax.getD 0)
    let gap := text.gap.getD 0
    some
      { signerName := signerName
        topLength := topLength
        bottomLength := bottomLength
        topLabelText := "By " ++ signerName
        topLabelLeft := topLength + gap
        bottomLabelLeft := bottomLength + gap
        svgWidth := max (width * (2/5)) 80
        svgHeight := height + 50 }

/-! ## The cleanup coordinator

`handleSignatureCreation` (source lines 360–447) and
`createAnnotationHandler` (source lines 457–479, modelled as
`createAnnotHandler`).  The asynchronous host calls (fetch of the
annotation/form-field lists, deletions) are modelled by an oracle of
`Except` results; the `try`/`catch` structure is modelled in the
`Except JsError` monad, and log statements as an explicit event list. -/

/-- A widget annotation as consumed by the matching strategies. -/
structure WidgetAnnot where
  formFieldName : Option String
  boundingBox : BBox
deriving DecidableEq

/-- The target-selection logic of `handleSignatureCreation` (source
lines 379–417): strategy 1 matches by `formFieldName` when the created
annotation carries a truthy one; strategy 2 scans the widgets in order
for the first one overlapping the annotation whose (truthy-named) form
field classifies as a signature field.  When strategy 1 finds a form
field but no widget, that form field survives unless strategy 2
overwrites the pair. -/
def selectTargets (annFFN : Option String) (annBBox : BBox)
    (widgets : List WidgetAnnot) (formFields : List FormFieldRec)
    (rules : SigIdRules) : Option WidgetAnnot × Option FormFieldRec :=
  let s1 :=
    if strTruthy annFFN then
      (widgets.find? (fun w => w.formFieldName == annFFN),
       formFields.find? (fun f => f.name == annFFN))
    else (none, none)
  match s1.1 with
  | some w => (some w, s1.2)
  | none =>
    let hit := widgets.find? fun w =>
      checkBoundingBoxOverlap annBBox w.boundingBox &&
      strTruthy w.formFieldName &&
      isSignatureField
        (formFields.find? (fun f => f.name == w.formFieldName)) rules
    match hit with
    | some w =>
      (some w, formFields.find? (fun f => f.name == w.formFieldName))
    | none => (none, s1.2)

/-- Outcomes of the host calls made during one cleanup run. -/
structure CleanupOracle where
  fetch : Except JsError (List WidgetAnnot × List FormFieldRec)
  deleteWidget : Except JsError Unit
  deleteFormField : Except JsError Unit

/-- The observable log/console events of one cleanup run. -/
inductive LogEvent where
  | deletedWidget
  | noWidgetFound
  | deletedFormField
  | formFieldAlreadyGone
  | errorLogged (message : Option String)
deriving DecidableEq

/-- The body of the outer `try` of `handleSignatureCreation` (source
lines 370–439): fetch the lists, select the targets, delete the widget
(a failure there escapes to the outer catch), then delete the form
field, where the inner catch suppresses a not-found failure and
re-throws any other. -/
def cleanupBody (ann : Annot) (rules : SigIdRules) (o : CleanupOracle) :
    Except JsError (List LogEvent) :=
  match o.fetch with
  | .error e => .error e
  | .ok (widgets, formFields) =>
    let targets :=
      selectTargets ann.formFieldName ann.boundingBox widgets formFields rules
    let step1 : Except JsError (List LogEvent) :=
      match targets.1 with
      | some _ =>
        match o.deleteWidget with
        | .ok _ => .ok [LogEvent.deletedWidget]
        | .error e => .error e
      | none => .ok [LogEvent.noWidgetFound]
    match step1 with
    | .error e => .error e
    | .ok l1 =>
      match targets.2 with
      | some _ =>
        match o.deleteFormField with
        | .ok _ => .ok (l1 ++ [LogEvent.deletedFormField])
        | .error e =>
          if isFormFieldNotFoundError (.single (some e)) then
            .ok (l1 ++ [LogEvent.formFieldAlreadyGone])
          else .error e
      | none => .ok l1

/-- `handleSignatureCreation` (source lines 360–447): the outer catch
turns a not-found error into an informational log and any other error
into an error log; no error escapes. -/
def handleSignatureCreation (ann : Annot) (rules : SigIdRules)
    (o : CleanupOracle) : List LogEvent :=
  match cleanupBody ann rules o with
  | .ok logs => logs
  | .error e =>
    if isFormFieldNotFoundError (.single (some e)) then
      [LogEvent.formFieldAlreadyGone]
    else
      [LogEvent.errorLogged e.message]

/-- The event handler returned by `createAnnotationHandler` (source
lines 457–479): each annotation of the batch that classifies as ink or
image goes through `handleSignatureCreation`, sequentially; the others
are skipped (empty log).  Total: no exception reaches the host's event
dispatch. -/
def createAnnotHandler (rules : SigIdRules) (oracleOf : Annot → CleanupOracle)
    (batch : List Annot) : List (List LogEvent) :=
  batch.map fun ann =>
    if ann.isInk || ann.isImage then
      handleSignatureCreation ann rules (oracleOf ann)
    else []

/-! ## Helper lemmas -/

@[simp] lemma jsFieldOr_some_isSome {α : Type} (x : Option α) (v : α) :
    (jsFieldOr x (some v)).isSome = true := by
  cases x <;> rfl

lemma isEmpty_false_of_ne {s : String} (h : s ≠ "") : s.isEmpty = false := by
  cases hs : s.isEmpty
  · rfl
  · exact absurd ((String.isEmpty_iff s).mp hs) h

/-! ## Claims about the configuration merge (C1) -/

/-- The override of the source's own usage example (lines 509–516):
`{ curve: { color: "#FF0000" } }`, a partial `curve` subtree. -/
def c1Override : Config :=
  { curve := some
      { color := some "#FF0000"
        strokeWidth := none
        topLengthRatio := none
        topLengthMax := none
        bottomLengthRatio := none
        bottomLengthMax := none }
    text := none
    position := none
    signatureIdentifiers := none
    defaults := none
    dateTimeFormat := none }

/-- C1, counterexample: merging the partial override
`{ curve: { color: "#FF0000" } }` in `initializeSignatureDecorator`
leaves `curve.strokeWidth` (and the other curve leaves) undefined, so
the merged configuration does not have every leaf field defined; the
same override deep-merged in `createSignatureRenderer` is gap-free. -/
theorem mergeInitConfig_leaves_gap :
    ((mergeInitConfig c1Override).curve.getD emptyCurveCfg).strokeWidth = none ∧
    configAllLeavesDefined (mergeInitConfig c1Override) = false ∧
    configAllLeavesDefined (mergeRendererConfig c1Override) = true := by
  refine ⟨rfl, rfl, rfl⟩

/-- C1, amended: the deep merge of `createSignatureRenderer` fills every
leaf of the `curve`, `text` (including `fontSize`), `position`,
`signatureIdentifiers` and `defaults` subtrees from the defaults, for
every override; its `dateTimeFormat` subtree is taken wholesale from the
override when present, else from the defaults.  The merge of
`initializeSignatureDecorator` is shallow: every top-level subtree is
taken wholesale from the override when present, else from the defaults,
so a partial nested override keeps its gaps. -/
theorem mergeRendererConfig_fills_leaves (custom : Config) :
    configDefinedExceptDateTimeFormat (mergeRendererConfig custom) = true ∧
    (mergeRendererConfig custom).dateTimeFormat =
      jsFieldOr custom.dateTimeFormat (some defaultDateTimeFormatCfg) ∧
    (mergeInitConfig custom).curve =
      jsFieldOr custom.curve (some defaultCurveCfg) ∧
    (mergeInitConfig custom).text =
      jsFieldOr custom.text (some defaultTextCfg) ∧
    (mergeInitConfig custom).position =
      jsFieldOr custom.position (some defaultPositionCfg) ∧
    (mergeInitConfig custom).signatureIdentifiers =
      jsFieldOr custom.signatureIdentifiers (some defaultSigIdCfg) ∧
    (mergeInitConfig custom).defaults =
      jsFieldOr custom.defaults (some defaultDefaultsCfg) ∧
    (mergeInitConfig custom).dateTimeFormat =
      jsFieldOr custom.dateTimeFormat (some defaultDateTimeFormatCfg) := by
  refine ⟨?_, rfl, rfl, rfl, rfl, rfl, rfl, rfl⟩
  simp [mergeRendererConfig, configDefinedExceptDateTimeFormat,
    spreadCurve, spreadFontSize, spreadPosition, spreadSigId, spreadDefaults,
    curveDefined, textDefined, fontSizeDefined, positionDefined, sigIdDefined,
    defaultsDefined, defaultCurveCfg, defaultTextCfg, defaultFontSizeCfg,
    defaultPositionCfg, defaultSigIdCfg, defaultDefaultsCfg]

/-! ## Claims about the overlap test (C2, C9) -/

/-- The overlap test, characterised by the four inclusive inequalities
(negation of the four strict disjointness comparisons). -/
lemma checkBBO_eq_true_iff (a b : BBox) :
    checkBoundingBoxOverlap a b = true ↔
      (a.left ≤ b.left + b.width ∧ b.left ≤ a.left + a.width ∧
       a.top ≤ b.top + b.height ∧ b.top ≤ a.top + a.height) := by
  simp only [checkBoundingBoxOverlap, Bool.not_eq_true', Bool.or_eq_false_iff,
    decide_eq_false_iff_not, gt_iff_lt, not_lt]
  tauto

/-- C2: `checkBoundingBoxOverlap` reports two boxes (with nonnegative
extents) overlapping iff their closed projections intersect on both the
horizontal and the vertical axis; boxes touching only at an edge are
reported overlapping (inclusive boundary convention). -/
theorem checkBoundingBoxOverlap_iff_projections (a b : BBox)
    (haw : 0 ≤ a.width) (hah : 0 ≤ a.height)
    (hbw : 0 ≤ b.width) (hbh : 0 ≤ b.height) :
    (checkBoundingBoxOverlap a b = true ↔
      ((Set.Icc a.left (a.left + a.width) ∩
        Set.Icc b.left (b.left + b.width)).Nonempty ∧
       (Set.Icc a.top (a.top + a.height) ∩
        Set.Icc b.top (b.top + b.height)).Nonempty)) ∧
    checkBoundingBoxOverlap ⟨0, 0, 1, 1⟩ ⟨1, 0, 1, 1⟩ = true := by
  constructor
  · rw [Set.Icc_inter_Icc, Set.Icc_inter_Icc, Set.nonempty_Icc, Set.nonempty_Icc,
      checkBBO_eq_true_iff]
    simp only [sup_le_iff, le_inf_iff]
    constructor
    · rintro ⟨h1, h2, h3, h4⟩
      refine ⟨⟨⟨?_, ?_⟩, ?_, ?_⟩, ⟨?_, ?_⟩, ?_, ?_⟩ <;> linarith
    · rintro ⟨⟨⟨_, hab⟩, hba, _⟩, ⟨_, hcd⟩, hdc, _⟩
      exact ⟨by linarith, by linarith, by linarith, by linarith⟩
  · norm_num [checkBoundingBoxOverlap]

/-- C2, witness: concrete boxes with positive extents, evaluated through
the theorem. -/
theorem checkBoundingBoxOverlap_iff_projections_witness :
    checkBoundingBoxOverlap ⟨0, 0, 2, 2⟩ ⟨1, 1, 2, 2⟩ = true ↔
      ((Set.Icc (0 : ℚ) (0 + 2) ∩ Set.Icc (1 : ℚ) (1 + 2)).Nonempty ∧
       (Set.Icc (0 : ℚ) (0 + 2) ∩ Set.Icc (1 : ℚ) (1 + 2)).Nonempty) :=
  (checkBoundingBoxOverlap_iff_projections ⟨0, 0, 2, 2⟩ ⟨1, 1, 2, 2⟩
    (by norm_num) (by norm_num) (by norm_num) (by norm_num)).1

/-- C9: `checkBoundingBoxOverlap` is symmetric in its two arguments. -/
theorem checkBoundingBoxOverlap_symm (a b : BBox) :
    checkBoundingBoxOverlap a b = checkBoundingBoxOverlap b a := by
  rw [Bool.eq_iff_iff, checkBBO_eq_true_iff, checkBBO_eq_true_iff]
  tauto

/-! ## Claims about the curve lengths (C5) -/

/-- C5, counterexample: with a negative `topLengthRatio` (the data model
only requires ratios to be finite) the computed lengths strictly
decrease as the width grows from 0 to 1, with the cap not reached at
either width, so the length is not monotonically non-decreasing for
every configuration. -/
theorem curveLength_not_monotone_cex :
    (0 : ℚ) ≤ 1 ∧
    createTopCurveLength 1 (-1) 50 < createTopCurveLength 0 (-1) 50 ∧
    createTopCurveLength 0 (-1) 50 ≠ 50 ∧
    createTopCurveLength 1 (-1) 50 ≠ 50 ∧
    createBottomCurveLength 1 (-1) 70 < createBottomCurveLength 0 (-1) 70 := by
  norm_num [createTopCurveLength, createBottomCurveLength]

/-- C5, amended: for every configuration whose ratio is nonnegative (as
the defaults are), the top and bottom curve lengths equal
`min(width × ratio, maxLen)`, are monotonically non-decreasing in the
width, and are constantly `maxLen` once the cap is reached. -/
theorem curveLength_monotone (ratio maxLen : ℚ) (hr : 0 ≤ ratio) :
    (∀ w : ℚ, createTopCurveLength w ratio maxLen = min (w * ratio) maxLen) ∧
    (∀ w w' : ℚ, w ≤ w' →
      createTopCurveLength w ratio maxLen ≤ createTopCurveLength w' ratio maxLen) ∧
    (∀ w : ℚ, maxLen ≤ w * ratio →
      createTopCurveLength w ratio maxLen = maxLen) ∧
    (∀ w : ℚ, createBottomCurveLength w ratio maxLen = min (w * ratio) maxLen) ∧
    (∀ w w' : ℚ, w ≤ w' →
      createBottomCurveLength w ratio maxLen ≤
        createBottomCurveLength w' ratio maxLen) ∧
    (∀ w : ℚ, maxLen ≤ w * ratio →
      createBottomCurveLength w ratio maxLen = maxLen) := by
  refine ⟨fun w => rfl, ?_, ?_, fun w => rfl, ?_, ?_⟩
  · intro w w' h
    exact min_le_min (mul_le_mul_of_nonneg_right h hr) le_rfl
  · intro w h
    exact min_eq_right h
  · intro w w' h
    exact min_le_min (mul_le_mul_of_nonneg_right h hr) le_rfl
  · intro w h
    exact min_eq_right h

/-- C5, witness: the default top ratio/cap at widths 100 and 200
(end-to-end scenario C: width 200 gives the capped length 50). -/
theorem curveLength_monotone_witness :
    createTopCurveLength 100 (1/4) 50 ≤ createTopCurveLength 200 (1/4) 50 ∧
    createTopCurveLength 200 (1/4) 50 = 50 := by
  have h := curveLength_monotone (1/4) 50 (by norm_num)
  exact ⟨h.2.1 100 200 (by norm_num), h.2.2.1 200 (by norm_num)⟩

/-! ## Claims about signature-field classification (C6) -/

/-- The amended classification: constructor name containing
`"Signature"`, or constructor name equal to the configured type code, or
field name containing the configured marker substring; a missing field is
never a signature field. -/
def specSignatureFieldAmended (ff : Option FormFieldRec) (rules : SigIdRules) : Bool :=
  match ff with
  | none => false
  | some f =>
    jsIncludes (f.ctorName.getD "") "Signature" ||
    ((f.ctorName.getD "") == rules.typeCode) ||
    jsIncludes (f.name.getD "") rules.namePattern

/-- C6, counterexample: a form field whose constructor name is
`"SignatureFormField"` (neither equal to the default type code `"S"` nor
named with the `"SIGNATURE"` marker) is classified as a signature field
by the code, but not by the claim's two-condition characterisation. -/
theorem isSignatureField_ctorName_cex :
    isSignatureField (some ⟨some "SignatureFormField", some "field1"⟩)
      DEFAULT_SIGID = true ∧
    specSignatureField (some ⟨some "SignatureFormField", some "field1"⟩)
      DEFAULT_SIGID = false :=
  ⟨rfl, rfl⟩

/-- C6, amended: `isSignatureField` classifies a present field as a
signature field iff its constructor name contains `"Signature"`, or its
constructor name equals the configured type code, or its name contains
the configured marker substring; a missing field is classified as not a
signature field. -/
theorem isSignatureField_eq_spec (ff : Option FormFieldRec) (rules : SigIdRules) :
    isSignatureField ff rules = specSignatureFieldAmended ff rules ∧
    isSignatureField none rules = false := by
  constructor
  · cases ff <;> rfl
  · rfl

/-! ## Claims about error classification (C10) -/

/-- C10: `isFormFieldNotFoundError` accepts both a single error value
and an array of them, returns `true` iff some element's message contains
one of the two not-found texts, and returns `false` when every element
is null/undefined or lacks a message. -/
theorem isFormFieldNotFoundError_spec (e : ErrInput) :
    (isFormFieldNotFoundError e = true ↔
      ∃ err ∈ errElems e,
        (jsIncludes (msgOf err) "no form field" = true ∨
         jsIncludes (msgOf err) "There is no form field" = true)) ∧
    ((∀ err ∈ errElems e, msgOf err = "") → isFormFieldNotFoundError e = false) := by
  constructor
  · rw [isFormFieldNotFoundError, List.any_eq_true]
    simp only [Bool.or_eq_true]
  · intro h
    cases hb : isFormFieldNotFoundError e with
    | false => rfl
    | true =>
      rw [isFormFieldNotFoundError, List.any_eq_true] at hb
      obtain ⟨err, hmem, hp⟩ := hb
      rw [h err hmem] at hp
      exact absurd hp (by decide)

/-- C10, witness: a batch of message-less elements yields `false`; a
single error carrying the not-found text yields `true`. -/
theorem isFormFieldNotFoundError_spec_witness :
    isFormFieldNotFoundError (.array [none, some ⟨none⟩, some ⟨some ""⟩]) = false ∧
    isFormFieldNotFoundError
      (.single (some ⟨some "There is no form field with name f"⟩)) = true := by
  constructor
  · apply (isFormFieldNotFoundError_spec _).2
    intro err hmem
    simp only [errElems, List.mem_cons, List.mem_singleton,
      List.not_mem_nil, or_false] at hmem
    rcases hmem with rfl | rfl | rfl <;> rfl
  · exact (isFormFieldNotFoundError_spec _).1.mpr
      ⟨some ⟨some "There is no form field with name f"⟩,
       by simp [errElems], Or.inr rfl⟩

/-! ## Claims about the renderer (C8, C7) -/

/-- C8: the renderer produces an overlay iff the annotation is an ink
annotation, an image annotation, or carries a truthy `isSignature` mark
in its custom data or directly on itself; otherwise it produces `null`. -/
theorem createSignatureRenderer_some_iff (opts : RendererOptions) (ann : Annot) :
    (createSignatureRenderer opts ann).isSome = true ↔
      (ann.isInk = true ∨ ann.isImage = true ∨
       (ann.customData.getD emptyCustomData).isSignature.getD false = true ∨
       ann.isSignature.getD false = true) := by
  cases hik : ann.isInk <;> cases him : ann.isImage <;>
    cases h1 : (ann.customData.getD emptyCustomData).isSignature.getD false <;>
    cases h2 : ann.isSignature.getD false <;>
    simp [createSignatureRenderer, hik, him, h1, h2]

/-- Renderer options with a logged-in user `"Alice"` and no overrides. -/
def c7Opts : RendererOptions := ⟨some "Alice", emptyConfig⟩

/-- An ink annotation whose custom data carries `signerName: ""`. -/
def c7CexAnn : Annot :=
  ⟨true, false, some ⟨none, some ""⟩, none, none, ⟨100, 100, 150, 50⟩⟩

/-- An ink annotation whose custom data carries `signerName: "Bob"`. -/
def c7WitAnn : Annot :=
  ⟨true, false, some ⟨none, some "Bob"⟩, none, none, ⟨100, 100, 150, 50⟩⟩

/-- C7, counterexample: the custom data provides the signer name `""`
(present), yet the top label reads `"By Alice"` from the logged-in user,
not `"By "`: a present-but-empty customData signer name is skipped. -/
theorem renderer_empty_signerName_cex :
    c7CexAnn.customData = some ⟨none, some ""⟩ ∧
    Option.map Overlay.topLabelText (createSignatureRenderer c7Opts c7CexAnn) =
      some "By Alice" ∧
    ("By Alice" : String) ≠ "By " := by
  refine ⟨rfl, rfl, by decide⟩

/-- C7, amended: for every rendered overlay the top label reads
`"By {signerName}"`, where the signer name is the customData-provided
name when present and non-empty, else the logged-in user identifier when
present and non-empty, else the merged configuration's default signer
name. -/
theorem renderer_signerName_precedence (opts : RendererOptions) (ann : Annot)
    (ov : Overlay) (h : createSignatureRenderer opts ann = some ov) :
    ov.topLabelText = "By " ++ ov.signerName ∧
    (∀ s : String,
      (ann.customData.getD emptyCustomData).signerName = some s → s ≠ "" →
      ov.signerName = s) ∧
    (∀ u : String,
      ((ann.customData.getD emptyCustomData).signerName = none ∨
       (ann.customData.getD emptyCustomData).signerName = some "") →
      opts.loggedInUser = some u → u ≠ "" → ov.signerName = u) ∧
    (((ann.customData.getD emptyCustomData).signerName = none ∨
      (ann.customData.getD emptyCustomData).signerName = some "") →
      (opts.loggedInUser = none ∨ opts.loggedInUser = some "") →
      ov.signerName =
        ((mergeRendererConfig opts.config).defaults.getD
          emptyDefaultsCfg).signerName.getD "") := by
  simp only [createSignatureRenderer] at h
  split at h
  · exact Option.noConfusion h
  · rw [Option.some.injEq] at h
    subst h
    refine ⟨rfl, ?_, ?_, ?_⟩
    · intro s hs hne
      simp only [hs, jsStrOr, isEmpty_false_of_ne hne, Bool.false_eq_true,
        if_false, Option.getD_some]
    · intro u hcd hu hune
      rcases hcd with hc | hc <;>
        simp only [hc, hu, jsStrOr, isEmpty_false_of_ne hune] <;> rfl
    · intro hcd hu
      rcases hcd with hc | hc <;> rcases hu with h2 | h2 <;>
        simp only [hc, h2, jsStrOr] <;> rfl

/-- C7, witness: custom data `signerName = "Bob"` with logged-in user
`"Alice"` renders the signer name `"Bob"` (customData takes precedence,
end-to-end scenario B). -/
theorem renderer_signerName_precedence_witness :
    Option.map Overlay.signerName (createSignatureRenderer c7Opts c7WitAnn) =
      some "Bob" := by
  have h0 : (createSignatureRenderer c7Opts c7WitAnn).isSome = true := rfl
  obtain ⟨ov, hov⟩ := Option.isSome_iff_exists.mp h0
  have hp := renderer_signerName_precedence c7Opts c7WitAnn ov hov
  have hb : ov.signerName = "Bob" := hp.2.1 "Bob" rfl (by decide)
  rw [hov]
  simp [hb]

/-! ## Claims about the matching strategies (C3) -/

/-- Bounding box of the created annotation in the matching scenarios. -/
def c3AnnBBox : BBox := ⟨0, 0, 10, 10⟩

/-- A widget overlapping the annotation, linked to a signature-named
form field. -/
def c3WSig : WidgetAnnot := ⟨some "MY_SIGNATURE_1", ⟨0, 0, 10, 10⟩⟩

/-- A widget whose `formFieldName` is the empty string. -/
def c3WEmpty : WidgetAnnot := ⟨some "", ⟨1000, 1000, 5, 5⟩⟩

def c3CexWidgets : List WidgetAnnot := [c3WSig, c3WEmpty]

def c3CexFields : List FormFieldRec := [⟨some "FormField", some "MY_SIGNATURE_1"⟩]

/-- C3, counterexample: the created annotation carries the
`formFieldName` `""` and a widget with that exact `formFieldName` is in
the list, yet strategy 1 is skipped (the empty name is falsy) and
strategy 2 selects the geometrically-overlapping signature-linked widget
with a different name. -/
theorem selectTargets_empty_name_cex :
    c3WEmpty ∈ c3CexWidgets ∧
    c3WEmpty.formFieldName = some "" ∧
    (selectTargets (some "") c3AnnBBox c3CexWidgets c3CexFields
      DEFAULT_SIGID).1 = some c3WSig ∧
    c3WSig.formFieldName ≠ some "" := by
  have hov : checkBoundingBoxOverlap c3AnnBBox c3WSig.boundingBox = true := by
    norm_num [checkBoundingBoxOverlap, c3AnnBBox, c3WSig]
  have hp : (checkBoundingBoxOverlap c3AnnBBox c3WSig.boundingBox &&
      strTruthy c3WSig.formFieldName &&
      isSignatureField
        (c3CexFields.find? fun f => f.name == c3WSig.formFieldName)
        DEFAULT_SIGID) = true := by
    rw [hov]
    rfl
  have hfind : (c3CexWidgets.find? fun w =>
      checkBoundingBoxOverlap c3AnnBBox w.boundingBox &&
      strTruthy w.formFieldName &&
      isSignatureField (c3CexFields.find? fun f => f.name == w.formFieldName)
        DEFAULT_SIGID) = some c3WSig := by
    rw [c3CexWidgets]
    exact List.find?_cons_of_pos _ hp
  have ht : strTruthy (some "") = false := rfl
  refine ⟨by simp [c3CexWidgets], rfl, ?_, by decide⟩
  simp only [selectTargets, ht, Bool.false_eq_true, if_false, hfind]

/-- C3, amended: when the created annotation carries a non-empty
`formFieldName` and some widget in the list has that exact name,
the selection is exactly the strategy-1 pair — the widget found by name
and the form field found by the same name — for every widget list,
including lists containing an overlapping widget linked to a
signature-classified form field of a different name (strategy 2 is never
consulted); and the widget selected indeed carries that name. -/
theorem selectTargets_strategy1 (n : String) (annBBox : BBox)
    (widgets : List WidgetAnnot) (formFields : List FormFieldRec)
    (rules : SigIdRules) (hn : n ≠ "")
    (hw : (widgets.find? fun w => w.formFieldName == some n).isSome = true) :
    selectTargets (some n) annBBox widgets formFields rules =
      ((widgets.find? fun w => w.formFieldName == some n),
       (formFields.find? fun f => f.name == some n)) ∧
    ∀ w, (widgets.find? fun w => w.formFieldName == some n) = some w →
      w.formFieldName = some n := by
  constructor
  · obtain ⟨w, hw'⟩ := Option.isSome_iff_exists.mp hw
    have ht : strTruthy (some n) = true := by
      simp [strTruthy, isEmpty_false_of_ne hn]
    simp only [selectTargets, ht, if_true, hw']
  · intro w hwf
    have hpw := List.find?_some hwf
    exact eq_of_beq hpw

/-- Widget named `"Sig1"`, placed away from the annotation. -/
def c3WitTarget : WidgetAnnot := ⟨some "Sig1", ⟨100, 100, 10, 10⟩⟩

/-- Widget list with the overlapping signature-linked decoy first. -/
def c3WitWidgets : List WidgetAnnot := [c3WSig, c3WitTarget]

def c3WitFields : List FormFieldRec :=
  [⟨some "FormField", some "MY_SIGNATURE_1"⟩, ⟨some "FormField", some "Sig1"⟩]

/-- C3, witness: an annotation named `"Sig1"` selects the widget and
form field named `"Sig1"` even though an overlapping signature-linked
widget of a different name is listed first (end-to-end scenario D). -/
theorem selectTargets_strategy1_witness :
    selectTargets (some "Sig1") c3AnnBBox c3WitWidgets c3WitFields
      DEFAULT_SIGID =
      (some c3WitTarget, some ⟨some "FormField", some "Sig1"⟩) := by
  have h := (selectTargets_strategy1 "Sig1" c3AnnBBox c3WitWidgets c3WitFields
    DEFAULT_SIGID (by decide) rfl).1
  rw [h]
  rfl

/-! ## Claims about cleanup error handling (C4) -/

/-- C4: when the form-field deletion fails, a not-found failure
(detected by `isFormFieldNotFoundError`) is suppressed as success while
any other failure is reported as an error log; every error raised inside
the cleanup body is converted by the outer catch into a log — it never
escapes — and the batch handler processes every annotation of the batch
regardless of individual outcomes. -/
theorem cleanup_error_containment
    (ann : Annot) (rules : SigIdRules) (o : CleanupOracle)
    (widgets : List WidgetAnnot) (formFields : List FormFieldRec)
    (w : WidgetAnnot) (f : FormFieldRec) (e : JsError)
    (hf : o.fetch = .ok (widgets, formFields))
    (hsel : selectTargets ann.formFieldName ann.boundingBox widgets formFields
      rules = (some w, some f))
    (hdw : o.deleteWidget = .ok ())
    (hde : o.deleteFormField = .error e) :
    (isFormFieldNotFoundError (.single (some e)) = true →
      handleSignatureCreation ann rules o =
        [LogEvent.deletedWidget, LogEvent.formFieldAlreadyGone]) ∧
    (isFormFieldNotFoundError (.single (some e)) = false →
      handleSignatureCreation ann rules o =
        [LogEvent.errorLogged e.message]) ∧
    (∀ e' : JsError, cleanupBody ann rules o = .error e' →
      handleSignatureCreation ann rules o =
        if isFormFieldNotFoundError (.single (some e')) then
          [LogEvent.formFieldAlreadyGone]
        else [LogEvent.errorLogged e'.message]) ∧
    (∀ (oracleOf : Annot → CleanupOracle) (batch : List Annot),
      (createAnnotHandler rules oracleOf batch).length = batch.length) := by
  have hbody : cleanupBody ann rules o =
      if isFormFieldNotFoundError (.single (some e)) then
        .ok [LogEvent.deletedWidget, LogEvent.formFieldAlreadyGone]
      else .error e := by
    simp only [cleanupBody, hf, hsel, hdw, hde, List.singleton_append]
  refine ⟨?_, ?_, ?_, ?_⟩
  · intro hnf
    simp only [handleSignatureCreation, hbody, hnf, if_true]
  · intro hnf
    simp only [handleSignatureCreation, hbody, hnf, Bool.false_eq_true, if_false]
  · intro e' hb
    simp only [handleSignatureCreation, hb]
  · intro oracleOf batch
    simp [createAnnotHandler]

/-- The created ink annotation of the cleanup scenario. -/
def c4Ann : Annot := ⟨true, false, none, none, some "Sig1", ⟨0, 0, 10, 10⟩⟩

def c4Widget : WidgetAnnot := ⟨some "Sig1", ⟨0, 0, 10, 10⟩⟩

def c4Field : FormFieldRec := ⟨some "FormField", some "Sig1"⟩

/-- Oracle whose form-field deletion fails with a not-found message. -/
def c4OracleGone : CleanupOracle :=
  ⟨.ok ([c4Widget], [c4Field]), .ok (),
   .error ⟨some "There is no form field with name Sig1"⟩⟩

/-- Oracle whose form-field deletion fails with an unrelated message. -/
def c4OracleDenied : CleanupOracle :=
  ⟨.ok ([c4Widget], [c4Field]), .ok (), .error ⟨some "permission denied"⟩⟩

/-- C4, witness: the not-found deletion failure is suppressed as an
informational log, while the permission failure is reported as an error
log; neither escapes the handler. -/
theorem cleanup_error_containment_witness :
    handleSignatureCreation c4Ann DEFAULT_SIGID c4OracleGone =
      [LogEvent.deletedWidget, LogEvent.formFieldAlreadyGone] ∧
    handleSignatureCreation c4Ann DEFAULT_SIGID c4OracleDenied =
      [LogEvent.errorLogged (some "permission denied")] := by
  constructor
  · exact (cleanup_error_containment c4Ann DEFAULT_SIGID c4OracleGone
      [c4Widget] [c4Field] c4Widget c4Field
      ⟨some "There is no form field with name Sig1"⟩
      rfl rfl rfl rfl).1 rfl
  · exact (cleanup_error_containment c4Ann DEFAULT_SIGID c4OracleDenied
      [c4Widget] [c4Field] c4Widget c4Field ⟨some "permission denied"⟩
      rfl rfl rfl rfl).2.1 rfl
